import Mathlib

/-!
# Verification of the SQS image-processing worker

A shallow embedding of `sqs_message_receiver.py`. Calls to external
collaborators (the SQS client, the HTTP library, the filesystem, PIL) are
recorded as an `Effect` trace; their outcomes (HTTP status code, whether a
given call raises an exception, the result of JSON deserialization) are
supplied by an `Env` record, so every function of the Python module becomes a
pure Lean function from an environment and its Python arguments to the list
of effects it performs together with its normal-return-or-raised-exception
outcome.
-/

set_option autoImplicit false

namespace SqsReceiver

/-- The bytes of an image, abstracted as a list of byte values. -/
abbrev ImageData := List Nat

/-- One observable call made by the worker while handling a message:
SQS calls, the HTTP GET, file writes, the JSON deserialization of the body,
and log lines. -/
inductive Effect where
  | jsonLoads (body : String)
  | httpGet (url : String)
  | sendMessage (queueUrl : String) (body : String)
  | deleteMessage (queueUrl : String) (receiptHandle : String)
  | saveOriginal (path : String) (data : ImageData)
  | saveResized (path : String)
  | logError (msg : String)
  | logInfo (msg : String)
  | logException (msg : String)
  deriving DecidableEq, Repr

/-- A Python exception as it matters to `process_message`: `ValueError`
(which `json.JSONDecodeError` subclasses) is caught by the first handler,
every other `Exception` by the second. -/
inductive PyExn where
  | valueError (msg : String)
  | otherError (msg : String)
  deriving DecidableEq, Repr

/-- The result of `json.loads` followed by `.get` on the two fields the code
reads: each field is `none` when absent (Python `None`) and `some s` when the
body carried the string `s`. -/
structure ParsedBody where
  id : Option String
  image_url : Option String
  deriving DecidableEq, Repr

/-- The SQS message envelope as `process_message` reads it: the raw body,
the receipt handle, and `int(message['Attributes']['ApproximateReceiveCount'])`. -/
structure Message where
  body : String
  receiptHandle : String
  receiveCount : Int
  deriving DecidableEq, Repr

/-- The outcomes of the external world during the handling of one message:
the queue URLs from configuration, what `json.loads` yields on a body
(`none` = it raises a decode error), the HTTP response, and whether each
fallible external call raises. -/
structure Env where
  sqsQueueUrl : String
  deadLetterQueueUrl : String
  jsonParse : String → Option ParsedBody
  httpRaises : Bool
  httpStatus : String → Nat
  httpContent : String → ImageData
  sendRaises : Bool
  deleteRaises : Bool
  saveRaises : Bool
  resizeRaises : Bool

/-- `ORIGINALS_DIR = "originals"`. -/
def ORIGINALS_DIR : String := "originals"

/-- `RESIZED_DIR = "resized"`. -/
def RESIZED_DIR : String := "resized"

/-- Python truthiness of an optional string: `None` and `""` are falsy. -/
def truthy : Option String → Bool
  | none => false
  | some s => s ≠ ""

/-- `posixpath.join` for two components (the only arity the code uses). -/
def osPathJoin (a b : String) : String :=
  if b.startsWith "/" then b
  else if a = "" || a.endsWith "/" then a ++ b
  else a ++ "/" ++ b

/-- Helper for `str.rfind`: the index of the last occurrence of `c`,
accumulated left to right. -/
def lastIndexOfAux (c : Char) : List Char → Int → Int → Int
  | [], _, acc => acc
  | x :: xs, i, acc => lastIndexOfAux c xs (i + 1) (if x = c then i else acc)

/-- `s.rfind(c)`: index of the last occurrence of `c` in `s`, `-1` if none. -/
def lastIndexOf (s : String) (c : Char) : Int :=
  lastIndexOfAux c s.toList 0 (-1)

/-- The extension component of `os.path.splitext` (posix flavour): the part
of the last path component from its last dot onward, unless every character
between the component start and that dot is itself a dot, in which case
the extension is empty. -/
def splitextExt (p : String) : String :=
  let sepIndex := lastIndexOf p '/'
  let dotIndex := lastIndexOf p '.'
  if sepIndex < dotIndex then
    let between := ((p.toList).drop (sepIndex + 1).toNat).take (dotIndex - sepIndex - 1).toNat
    if between.any (fun ch => ch ≠ '.') then String.mk ((p.toList).drop dotIndex.toNat)
    else ""
  else ""

/-- `get_image_ext(url)`: the `splitext` extension, defaulting to `".jpg"`
when it is empty. -/
def get_image_ext (url : String) : String :=
  let ext := splitextExt url
  if ext ≠ "" then ext else ".jpg"

/-- `download_image(url)`: performs the GET; returns the body bytes on
status 200, logs and returns `None` otherwise; a transport failure raises. -/
def download_image (env : Env) (url : String) :
    List Effect × Except PyExn (Option ImageData) :=
  if env.httpRaises then
    ([Effect.httpGet url], Except.error (PyExn.otherError "requests.get"))
  else if env.httpStatus url = 200 then
    ([Effect.httpGet url], Except.ok (some (env.httpContent url)))
  else
    ([Effect.httpGet url,
      Effect.logError ("Failed to download image from URL: " ++ url)],
     Except.ok none)

/-- `save_original_image(image_data, original_image_path)`: writes the raw
bytes to the path; an I/O failure raises. -/
def save_original_image (env : Env) (image_data : ImageData)
    (original_image_path : String) : List Effect × Except PyExn Unit :=
  if env.saveRaises then ([], Except.error (PyExn.otherError "open"))
  else ([Effect.saveOriginal original_image_path image_data], Except.ok ())

/-- `resize_and_save_image(image_data, resized_image_path)`: decodes,
thumbnails and saves; a decode/resize/save failure raises before the file
exists. -/
def resize_and_save_image (env : Env) (image_data : ImageData)
    (resized_image_path : String) : List Effect × Except PyExn Unit :=
  if env.resizeRaises then ([], Except.error (PyExn.otherError "PIL"))
  else ([Effect.saveResized resized_image_path], Except.ok ())

/-- `send_to_dead_letter_queue(sqs_client, message)`: logs, then calls
`send_message` on the dead-letter queue with the raw body; the call may
raise. -/
def send_to_dead_letter_queue (env : Env) (message : String) :
    List Effect × Except PyExn Unit :=
  ([Effect.logError
      "Message processing failed more than 10 times. Moving to dead letter queue.",
    Effect.sendMessage env.deadLetterQueueUrl message],
   if env.sendRaises then Except.error (PyExn.otherError "send_message")
   else Except.ok ())

/-- `sqs_client.delete_message(QueueUrl=..., ReceiptHandle=...)`: the call is
made and may raise. -/
def delete_message (env : Env) (queueUrl receiptHandle : String) :
    List Effect × Except PyExn Unit :=
  ([Effect.deleteMessage queueUrl receiptHandle],
   if env.deleteRaises then Except.error (PyExn.otherError "delete_message")
   else Except.ok ())

/-- `process_valid_message(message, sqs_client, sqs_queue_url,
receipt_handle, originals_dir, resized_dir)`: parse the body, validate the
two fields, download, save the original, resize-and-save, log, delete.
Each raised exception aborts the rest. -/
def process_valid_message (env : Env) (message : Message)
    (sqs_queue_url receipt_handle originals_dir resized_dir : String) :
    List Effect × Except PyExn Unit :=
  match env.jsonParse message.body with
  | none =>
    ([Effect.jsonLoads message.body],
     Except.error (PyExn.valueError "Expecting value"))
  | some body =>
    let image_id := body.id
    let image_url := body.image_url
    if !truthy image_id || !truthy image_url then
      ([Effect.jsonLoads message.body,
        Effect.logError "Message format is invalid. Missing id or image_url."],
       Except.ok ())
    else
      let url := image_url.getD ""
      let idStr := image_id.getD ""
      let e0 := [Effect.jsonLoads message.body]
      let (e1, r1) := download_image env url
      match r1 with
      | Except.error e => (e0 ++ e1, Except.error e)
      | Except.ok none => (e0 ++ e1, Except.ok ())
      | Except.ok (some image_data) =>
        let image_ext := get_image_ext url
        let original_image_path := osPathJoin originals_dir (idStr ++ image_ext)
        let (e2, r2) := save_original_image env image_data original_image_path
        match r2 with
        | Except.error e => (e0 ++ e1 ++ e2, Except.error e)
        | Except.ok _ =>
          let resized_image_path := osPathJoin resized_dir (idStr ++ image_ext)
          let (e3, r3) := resize_and_save_image env image_data resized_image_path
          match r3 with
          | Except.error e => (e0 ++ e1 ++ e2 ++ e3, Except.error e)
          | Except.ok _ =>
            let e4 := [Effect.logInfo ("Processed image " ++ idStr ++ " successfully.")]
            let (e5, r5) := delete_message env sqs_queue_url receipt_handle
            (e0 ++ e1 ++ e2 ++ e3 ++ e4 ++ e5, r5)

/-- The `receive_count > 10` branch of `process_message`: forward to the
dead-letter queue, then (only if the forward returned) delete from the main
queue. -/
def quarantineBranch (env : Env) (body receipt_handle : String) :
    List Effect × Except PyExn Unit :=
  let (e1, r1) := send_to_dead_letter_queue env body
  match r1 with
  | Except.error e => (e1, Except.error e)
  | Except.ok _ =>
    let (e2, r2) := delete_message env env.sqsQueueUrl receipt_handle
    (e1 ++ e2, r2)

/-- The `try/except` of `process_message`: a `ValueError` is logged by the
first handler, any other exception by the second; nothing propagates. -/
def handleExceptions : List Effect × Except PyExn Unit →
    List Effect × Except PyExn Unit
  | (effs, Except.ok _) => (effs, Except.ok ())
  | (effs, Except.error (PyExn.valueError m)) =>
    (effs ++ [Effect.logError
      ("ValueError: " ++ m ++ ". Unable to parse message body as JSON.")],
     Except.ok ())
  | (effs, Except.error (PyExn.otherError m)) =>
    (effs ++ [Effect.logException ("Error processing message: " ++ m)],
     Except.ok ())

/-- `process_message(sqs_client, message)`: quarantine when the receive
count exceeds 10, otherwise the normal path, the whole body wrapped in the
two exception handlers. -/
def process_message (env : Env) (message : Message) :
    List Effect × Except PyExn Unit :=
  let receipt_handle := message.receiptHandle
  let receive_count := message.receiveCount
  handleExceptions
    (if receive_count > 10 then
      quarantineBranch env message.body receipt_handle
    else
      process_valid_message env message env.sqsQueueUrl receipt_handle
        ORIGINALS_DIR RESIZED_DIR)

/-- Is the effect an SQS `send_message` call? -/
def isSend : Effect → Bool
  | Effect.sendMessage _ _ => true
  | _ => false

/-- Is the effect an SQS `delete_message` call? -/
def isDelete : Effect → Bool
  | Effect.deleteMessage _ _ => true
  | _ => false

/-- Is the effect the HTTP GET of `download_image`? -/
def isHttpGet : Effect → Bool
  | Effect.httpGet _ => true
  | _ => false

/-- Is the effect a `json.loads` of a message body? -/
def isJsonLoads : Effect → Bool
  | Effect.jsonLoads _ => true
  | _ => false

/-- Is the effect a filesystem write (original or resized artifact)? -/
def isWriteEffect : Effect → Bool
  | Effect.saveOriginal _ _ => true
  | Effect.saveResized _ => true
  | _ => false

/-- Number of `send_message` calls in a trace. -/
def countSends (t : List Effect) : Nat := (t.filter isSend).length

/-- Number of `delete_message` calls in a trace. -/
def countDeletes (t : List Effect) : Nat := (t.filter isDelete).length

/-- Number of HTTP GET calls in a trace. -/
def countHttpGets (t : List Effect) : Nat := (t.filter isHttpGet).length

/-- Number of `json.loads` invocations in a trace. -/
def countParses (t : List Effect) : Nat := (t.filter isJsonLoads).length

/-- Number of filesystem writes in a trace. -/
def countWrites (t : List Effect) : Nat := (t.filter isWriteEffect).length

/-- The subsequence of SQS queue calls (sends and deletes) of a trace, in
order. -/
def sqsCalls (t : List Effect) : List Effect :=
  t.filter (fun e => isSend e || isDelete e)

/-- The subsequence of delete calls of a trace, in order. -/
def deletesOf (t : List Effect) : List Effect := t.filter isDelete

/-- The subsequence of filesystem writes of a trace, in order. -/
def writesOf (t : List Effect) : List Effect := t.filter isWriteEffect

/-- A sample environment in which every body fails JSON deserialization and
every external call succeeds. -/
def envInvalidJson : Env :=
  { sqsQueueUrl := "https://sqs/main"
    deadLetterQueueUrl := "https://sqs/dlq"
    jsonParse := fun _ => none
    httpRaises := false
    httpStatus := fun _ => 200
    httpContent := fun _ => [1, 2, 3]
    sendRaises := false
    deleteRaises := false
    saveRaises := false
    resizeRaises := false }

/-- A sample environment in which every body deserializes to a valid work
item and every external call succeeds. -/
def envOk : Env :=
  { envInvalidJson with
    jsonParse := fun _ =>
      some { id := some "123", image_url := some "http://example.com/image.jpg" } }

/-- A sample environment in which the dead-letter `send_message` call
raises and everything else behaves as in `envInvalidJson`. -/
def envSendFails : Env := { envInvalidJson with sendRaises := true }

/-- A sample environment in which every body deserializes to a work item
whose `image_url` field is absent. -/
def envMissingUrl : Env :=
  { envInvalidJson with
    jsonParse := fun _ => some { id := some "123", image_url := none } }

/-- A sample environment in which every GET returns status 404. -/
def envFetch404 : Env := { envOk with httpStatus := fun _ => 404 }

/-- A sample environment in which the resize-and-save step raises. -/
def envResizeFails : Env := { envOk with resizeRaises := true }

end SqsReceiver

namespace SqsReceiver

/-- Dispatch lemma: a receive count of at most 10 takes the normal path. -/
lemma process_message_eq_normal (env : Env) (message : Message)
    (h : message.receiveCount ≤ 10) :
    process_message env message =
      handleExceptions (process_valid_message env message env.sqsQueueUrl
        message.receiptHandle ORIGINALS_DIR RESIZED_DIR) := by
  simp only [process_message]
  rw [if_neg (by omega)]

/-- Dispatch lemma: a receive count exceeding 10 takes the quarantine
branch. -/
lemma process_message_eq_quarantine (env : Env) (message : Message)
    (h : 10 < message.receiveCount) :
    process_message env message =
      handleExceptions
        (quarantineBranch env message.body message.receiptHandle) := by
  simp only [process_message]
  rw [if_pos h]

/-- Path lemma: when the body deserializes to a work item with non-empty
`id` and `image_url`, the GET returns status 200 and neither save raises,
`process_valid_message` performs parse, fetch, the two writes and the
delete, in that order, and its outcome is that of the delete call. -/
lemma process_valid_message_success (env : Env) (message : Message)
    (q rh odir rdir imgId url : String)
    (hp : env.jsonParse message.body = some { id := some imgId, image_url := some url })
    (hid : imgId ≠ "") (hurl : url ≠ "")
    (hhr : env.httpRaises = false) (hst : env.httpStatus url = 200)
    (hsv : env.saveRaises = false) (hrz : env.resizeRaises = false) :
    process_valid_message env message q rh odir rdir =
      ([Effect.jsonLoads message.body, Effect.httpGet url,
        Effect.saveOriginal (osPathJoin odir (imgId ++ get_image_ext url))
          (env.httpContent url),
        Effect.saveResized (osPathJoin rdir (imgId ++ get_image_ext url)),
        Effect.logInfo ("Processed image " ++ imgId ++ " successfully."),
        Effect.deleteMessage q rh],
       if env.deleteRaises then Except.error (PyExn.otherError "delete_message")
       else Except.ok ()) := by
  simp only [process_valid_message, hp]
  simp [truthy, hid, hurl, download_image, hhr, hst, save_original_image, hsv,
    resize_and_save_image, hrz, delete_message]

/-- Path lemma: same premises as the success lemma except that the
resize-and-save step raises: the original has been written, no resized
artifact is written, no delete call is made, and the exception propagates
out of `process_valid_message`. -/
lemma process_valid_message_resize_fail (env : Env) (message : Message)
    (q rh odir rdir imgId url : String)
    (hp : env.jsonParse message.body = some { id := some imgId, image_url := some url })
    (hid : imgId ≠ "") (hurl : url ≠ "")
    (hhr : env.httpRaises = false) (hst : env.httpStatus url = 200)
    (hsv : env.saveRaises = false) (hrz : env.resizeRaises = true) :
    process_valid_message env message q rh odir rdir =
      ([Effect.jsonLoads message.body, Effect.httpGet url,
        Effect.saveOriginal (osPathJoin odir (imgId ++ get_image_ext url))
          (env.httpContent url)],
       Except.error (PyExn.otherError "PIL")) := by
  simp only [process_valid_message, hp]
  simp [truthy, hid, hurl, download_image, hhr, hst, save_original_image, hsv,
    resize_and_save_image, hrz]

/-- Path lemma: when the body deserializes but `id` or `image_url` is
absent or empty, `process_valid_message` logs the format error and returns
having made no other call. -/
lemma process_valid_message_invalid_fields (env : Env) (message : Message)
    (q rh odir rdir : String) (b : ParsedBody)
    (hp : env.jsonParse message.body = some b)
    (hbad : truthy b.id = false ∨ truthy b.image_url = false) :
    process_valid_message env message q rh odir rdir =
      ([Effect.jsonLoads message.body,
        Effect.logError "Message format is invalid. Missing id or image_url."],
       Except.ok ()) := by
  simp only [process_valid_message, hp]
  rcases hbad with hbad | hbad <;> simp [hbad]

/-- Path lemma: when the body is valid but the GET returns a status other
than 200, `process_valid_message` performs only the parse, the fetch and
the failure log: no write and no delete. -/
lemma process_valid_message_fetch_fail (env : Env) (message : Message)
    (q rh odir rdir imgId url : String)
    (hp : env.jsonParse message.body = some { id := some imgId, image_url := some url })
    (hid : imgId ≠ "") (hurl : url ≠ "")
    (hhr : env.httpRaises = false) (hst : env.httpStatus url ≠ 200) :
    process_valid_message env message q rh odir rdir =
      ([Effect.jsonLoads message.body, Effect.httpGet url,
        Effect.logError ("Failed to download image from URL: " ++ url)],
       Except.ok ()) := by
  simp only [process_valid_message, hp]
  simp [truthy, hid, hurl, download_image, hhr, hst]

/-- Path lemma: when the body fails to deserialize, `process_valid_message`
raises the `ValueError` after the parse attempt. -/
lemma process_valid_message_parse_fail (env : Env) (message : Message)
    (q rh odir rdir : String)
    (hp : env.jsonParse message.body = none) :
    process_valid_message env message q rh odir rdir =
      ([Effect.jsonLoads message.body],
       Except.error (PyExn.valueError "Expecting value")) := by
  simp only [process_valid_message, hp]

/-- C8: extension inference takes the URL's path suffix and defaults to
".jpg" when none is present: `.png`, default `.jpg`, and `.jpeg` on the
three specified inputs. -/
theorem get_image_ext_cases :
    get_image_ext "http://x/a.png" = ".png" ∧
    get_image_ext "http://x/a" = ".jpg" ∧
    get_image_ext "http://x/a.jpeg" = ".jpeg" := by
  refine ⟨?_, ?_, ?_⟩ <;> rfl

/-- C1: the quarantine decision is strictly-greater-than at 10: a receive
count of at most 10 dispatches the message to the normal processing path,
and a receive count of at least 11 takes the quarantine branch (dead-letter
forward and delete), so the boundary lies exactly between 10 and 11. -/
theorem quarantine_boundary (env : Env) (message : Message) :
    (message.receiveCount ≤ 10 →
      process_message env message =
        handleExceptions (process_valid_message env message env.sqsQueueUrl
          message.receiptHandle ORIGINALS_DIR RESIZED_DIR)) ∧
    (11 ≤ message.receiveCount →
      process_message env message =
        handleExceptions
          (quarantineBranch env message.body message.receiptHandle)) := by
  constructor
  · intro h
    simp only [process_message]
    rw [if_neg (by omega)]
  · intro h
    simp only [process_message]
    rw [if_pos (by omega)]

/-- Witness for C1: the boundary instantiated on concrete messages with
receive counts 10 and 11. -/
theorem quarantine_boundary_wit :
    (process_message envOk { body := "b", receiptHandle := "rh", receiveCount := 10 } =
      handleExceptions (process_valid_message envOk
        { body := "b", receiptHandle := "rh", receiveCount := 10 }
        envOk.sqsQueueUrl "rh" ORIGINALS_DIR RESIZED_DIR)) ∧
    (process_message envOk { body := "b", receiptHandle := "rh", receiveCount := 11 } =
      handleExceptions (quarantineBranch envOk "b" "rh")) :=
  ⟨(quarantine_boundary envOk
      { body := "b", receiptHandle := "rh", receiveCount := 10 }).1 (by decide),
   (quarantine_boundary envOk
      { body := "b", receiptHandle := "rh", receiveCount := 11 }).2 (by decide)⟩

/-- C2 counterexample: a message with receive count 11 whose dead-letter
send raises: the quarantine branch is entered (the send call is made), yet
no delete call whatsoever appears in the trace — the delete is skipped when
the forward raises, refuting "the delete call is made even when the send to
the dead-letter queue raises an error". -/
theorem quarantine_delete_skipped_on_send_failure :
    countSends (process_message envSendFails
      { body := "b", receiptHandle := "rh", receiveCount := 11 }).1 = 1 ∧
    countDeletes (process_message envSendFails
      { body := "b", receiptHandle := "rh", receiveCount := 11 }).1 = 0 := by
  decide

/-- C2 (amended): on the quarantine path the delete is made exactly when the
dead-letter send returns without raising; when the send raises, no delete
call is made and the exception is caught by the handler (the message stays
on the main queue). -/
theorem quarantine_delete_after_send (env : Env) (message : Message)
    (h : 10 < message.receiveCount) :
    (env.sendRaises = false →
      deletesOf (process_message env message).1 =
        [Effect.deleteMessage env.sqsQueueUrl message.receiptHandle]) ∧
    (env.sendRaises = true →
      countDeletes (process_message env message).1 = 0 ∧
      (process_message env message).2 = Except.ok ()) := by
  have hq : process_message env message =
      handleExceptions (quarantineBranch env message.body message.receiptHandle) := by
    simp only [process_message]
    rw [if_pos h]
  constructor
  · intro hs
    rw [hq]
    cases hd : env.deleteRaises <;>
      simp [quarantineBranch, send_to_dead_letter_queue, delete_message, hs, hd,
        handleExceptions, deletesOf, isDelete]
  · intro hs
    rw [hq]
    simp [quarantineBranch, send_to_dead_letter_queue, hs, handleExceptions,
      countDeletes, isDelete]

/-- Witness for C2 (amended): both arms at receive count 11, once with a
succeeding send and once with a raising one. -/
theorem quarantine_delete_after_send_wit :
    (deletesOf (process_message envInvalidJson
        { body := "b", receiptHandle := "rh", receiveCount := 11 }).1 =
      [Effect.deleteMessage envInvalidJson.sqsQueueUrl "rh"]) ∧
    (countDeletes (process_message envSendFails
        { body := "c", receiptHandle := "rh2", receiveCount := 11 }).1 = 0 ∧
      (process_message envSendFails
        { body := "c", receiptHandle := "rh2", receiveCount := 11 }).2 =
        Except.ok ()) :=
  ⟨(quarantine_delete_after_send envInvalidJson
      { body := "b", receiptHandle := "rh", receiveCount := 11 }
      (by decide)).1 (by decide),
   (quarantine_delete_after_send envSendFails
      { body := "c", receiptHandle := "rh2", receiveCount := 11 }
      (by decide)).2 (by decide)⟩

/-- C3: at receive count 11 with a succeeding dead-letter send, the SQS
calls of the trace are exactly one send carrying the unmodified raw body
followed by one delete with the message's receipt handle, and the normal
path is never invoked: no HTTP fetch, no file write, no body parse. -/
theorem quarantine_send_then_delete (env : Env) (message : Message)
    (h1 : message.receiveCount = 11) (h2 : env.sendRaises = false) :
    sqsCalls (process_message env message).1 =
      [Effect.sendMessage env.deadLetterQueueUrl message.body,
       Effect.deleteMessage env.sqsQueueUrl message.receiptHandle] ∧
    countHttpGets (process_message env message).1 = 0 ∧
    countWrites (process_message env message).1 = 0 ∧
    countParses (process_message env message).1 = 0 := by
  have hq : process_message env message =
      handleExceptions (quarantineBranch env message.body message.receiptHandle) := by
    simp only [process_message]
    rw [if_pos (by omega)]
  rw [hq]
  cases hd : env.deleteRaises <;>
    simp [quarantineBranch, send_to_dead_letter_queue, delete_message, h2, hd,
      handleExceptions, sqsCalls, countHttpGets, countWrites, countParses,
      isSend, isDelete, isHttpGet, isWriteEffect, isJsonLoads]

/-- Witness for C3: a concrete message at receive count 11 in an
environment whose send succeeds. -/
theorem quarantine_send_then_delete_wit :
    sqsCalls (process_message envInvalidJson
      { body := "raw", receiptHandle := "h9", receiveCount := 11 }).1 =
      [Effect.sendMessage envInvalidJson.deadLetterQueueUrl "raw",
       Effect.deleteMessage envInvalidJson.sqsQueueUrl "h9"] ∧
    countHttpGets (process_message envInvalidJson
      { body := "raw", receiptHandle := "h9", receiveCount := 11 }).1 = 0 ∧
    countWrites (process_message envInvalidJson
      { body := "raw", receiptHandle := "h9", receiveCount := 11 }).1 = 0 ∧
    countParses (process_message envInvalidJson
      { body := "raw", receiptHandle := "h9", receiveCount := 11 }).1 = 0 :=
  quarantine_send_then_delete envInvalidJson
    { body := "raw", receiptHandle := "h9", receiveCount := 11 }
    (by decide) (by decide)

/-- C4: on full success, the trace contains exactly one delete call, with
the message's own receipt handle, and exactly two writes: the original at
`originals/<id><ext>` and the resized artifact at `resized/<id><ext>`, with
the same filename stem and the extension inferred from the URL. -/
theorem success_one_delete_two_artifacts (env : Env) (message : Message)
    (imgId url : String)
    (hc : message.receiveCount ≤ 10)
    (hp : env.jsonParse message.body = some { id := some imgId, image_url := some url })
    (hid : imgId ≠ "") (hurl : url ≠ "")
    (hhr : env.httpRaises = false) (hst : env.httpStatus url = 200)
    (hsv : env.saveRaises = false) (hrz : env.resizeRaises = false) :
    deletesOf (process_message env message).1 =
      [Effect.deleteMessage env.sqsQueueUrl message.receiptHandle] ∧
    writesOf (process_message env message).1 =
      [Effect.saveOriginal (osPathJoin ORIGINALS_DIR (imgId ++ get_image_ext url))
        (env.httpContent url),
       Effect.saveResized (osPathJoin RESIZED_DIR (imgId ++ get_image_ext url))] := by
  rw [process_message_eq_normal env message hc,
    process_valid_message_success env message _ _ _ _ imgId url hp hid hurl hhr
      hst hsv hrz]
  cases hd : env.deleteRaises <;>
    simp [hd, handleExceptions, deletesOf, writesOf, isDelete, isWriteEffect]

/-- Witness for C4: the success path on a concrete message in `envOk`. -/
theorem success_one_delete_two_artifacts_wit :
    deletesOf (process_message envOk
      { body := "b", receiptHandle := "rh4", receiveCount := 1 }).1 =
      [Effect.deleteMessage envOk.sqsQueueUrl "rh4"] ∧
    writesOf (process_message envOk
      { body := "b", receiptHandle := "rh4", receiveCount := 1 }).1 =
      [Effect.saveOriginal
        (osPathJoin ORIGINALS_DIR ("123" ++ get_image_ext "http://example.com/image.jpg"))
        (envOk.httpContent "http://example.com/image.jpg"),
       Effect.saveResized
        (osPathJoin RESIZED_DIR ("123" ++ get_image_ext "http://example.com/image.jpg"))] :=
  success_one_delete_two_artifacts envOk
    { body := "b", receiptHandle := "rh4", receiveCount := 1 }
    "123" "http://example.com/image.jpg"
    (by decide) (by decide) (by decide) (by decide) (by decide) (by decide)
    (by decide) (by decide)

/-- C5 counterexample: a message whose body deserializes to a work item
missing `image_url` but whose receive count is 11 takes the quarantine path
before any parse or validation: one dead-letter send and one delete appear
in the trace, refuting the claim that for every such message no queue
deletion call is ever made and no dead-letter send is made. -/
theorem missing_field_claim_fails_at_count_11 :
    countSends (process_message envMissingUrl
      { body := "bm", receiptHandle := "rh5c", receiveCount := 11 }).1 = 1 ∧
    countDeletes (process_message envMissingUrl
      { body := "bm", receiptHandle := "rh5c", receiveCount := 11 }).1 = 1 := by
  decide

/-- C5 (amended): for every message with receive count at most 10 whose
body deserializes but whose `id` or `image_url` is missing or empty, the
trace is exactly the parse and the error log: no delete, no dead-letter
send, processing of the message stops normally and the message is left
unacknowledged. -/
theorem invalid_workitem_never_deleted (env : Env) (message : Message)
    (b : ParsedBody)
    (hc : message.receiveCount ≤ 10)
    (hp : env.jsonParse message.body = some b)
    (hbad : truthy b.id = false ∨ truthy b.image_url = false) :
    (process_message env message).1 =
      [Effect.jsonLoads message.body,
       Effect.logError "Message format is invalid. Missing id or image_url."] ∧
    countDeletes (process_message env message).1 = 0 ∧
    countSends (process_message env message).1 = 0 ∧
    (process_message env message).2 = Except.ok () := by
  rw [process_message_eq_normal env message hc,
    process_valid_message_invalid_fields env message _ _ _ _ b hp hbad]
  simp [handleExceptions, countDeletes, countSends, isDelete, isSend]

/-- Witness for C5: a concrete message whose parsed body lacks
`image_url`. -/
theorem invalid_workitem_never_deleted_wit :
    (process_message envMissingUrl
      { body := "bm", receiptHandle := "rh5", receiveCount := 3 }).1 =
      [Effect.jsonLoads "bm",
       Effect.logError "Message format is invalid. Missing id or image_url."] ∧
    countDeletes (process_message envMissingUrl
      { body := "bm", receiptHandle := "rh5", receiveCount := 3 }).1 = 0 ∧
    countSends (process_message envMissingUrl
      { body := "bm", receiptHandle := "rh5", receiveCount := 3 }).1 = 0 ∧
    (process_message envMissingUrl
      { body := "bm", receiptHandle := "rh5", receiveCount := 3 }).2 =
      Except.ok () :=
  invalid_workitem_never_deleted envMissingUrl
    { body := "bm", receiptHandle := "rh5", receiveCount := 3 }
    { id := some "123", image_url := none }
    (by decide) (by decide) (by decide)

/-- C6: when the image fetch fails with a non-2xx status, the trace
contains zero delete calls and zero filesystem writes, leaving the message
unacknowledged for redelivery. -/
theorem fetch_failure_no_delete_no_persist (env : Env) (message : Message)
    (imgId url : String)
    (hc : message.receiveCount ≤ 10)
    (hp : env.jsonParse message.body = some { id := some imgId, image_url := some url })
    (hid : imgId ≠ "") (hurl : url ≠ "")
    (hhr : env.httpRaises = false)
    (hst : ¬ (200 ≤ env.httpStatus url ∧ env.httpStatus url < 300)) :
    countDeletes (process_message env message).1 = 0 ∧
    countWrites (process_message env message).1 = 0 := by
  have hne : env.httpStatus url ≠ 200 := by
    intro h200
    exact hst ⟨le_of_eq h200.symm, by omega⟩
  rw [process_message_eq_normal env message hc,
    process_valid_message_fetch_fail env message _ _ _ _ imgId url hp hid hurl
      hhr hne]
  simp [handleExceptions, countDeletes, countWrites, isDelete, isWriteEffect]

/-- Witness for C6: a concrete message whose fetch returns 404. -/
theorem fetch_failure_no_delete_no_persist_wit :
    countDeletes (process_message envFetch404
      { body := "b6", receiptHandle := "rh6", receiveCount := 2 }).1 = 0 ∧
    countWrites (process_message envFetch404
      { body := "b6", receiptHandle := "rh6", receiveCount := 2 }).1 = 0 :=
  fetch_failure_no_delete_no_persist envFetch404
    { body := "b6", receiptHandle := "rh6", receiveCount := 2 }
    "123" "http://example.com/image.jpg"
    (by decide) (by decide) (by decide) (by decide) (by decide) (by decide)

/-- C7 counterexample: a message whose body is not valid JSON but whose
receive count is 11 is dead-lettered and deleted (one send and one delete
in the trace, no parse attempt), refuting the claim that for every message
with a non-JSON body no delete call and no dead-letter send is made. -/
theorem invalid_json_claim_fails_at_count_11 :
    countSends (process_message envInvalidJson
      { body := "not json", receiptHandle := "rh7", receiveCount := 11 }).1 = 1 ∧
    countDeletes (process_message envInvalidJson
      { body := "not json", receiptHandle := "rh7", receiveCount := 11 }).1 = 1 ∧
    countParses (process_message envInvalidJson
      { body := "not json", receiptHandle := "rh7", receiveCount := 11 }).1 = 0 := by
  decide

/-- C7 (amended): for every message with receive count at most 10 whose
body is not valid JSON, the parse failure is caught and logged, no delete
call and no dead-letter send is made, and the handler returns normally, so
the exception never escapes and the message is left for redelivery. -/
theorem parse_failure_logged_not_acked (env : Env) (message : Message)
    (hc : message.receiveCount ≤ 10)
    (hp : env.jsonParse message.body = none) :
    (process_message env message).1 =
      [Effect.jsonLoads message.body,
       Effect.logError
         ("ValueError: " ++ "Expecting value" ++
           ". Unable to parse message body as JSON.")] ∧
    countDeletes (process_message env message).1 = 0 ∧
    countSends (process_message env message).1 = 0 ∧
    (process_message env message).2 = Except.ok () := by
  rw [process_message_eq_normal env message hc,
    process_valid_message_parse_fail env message _ _ _ _ hp]
  simp [handleExceptions, countDeletes, countSends, isDelete, isSend]

/-- Witness for C7 (amended): a concrete non-JSON body at receive count
1. -/
theorem parse_failure_logged_not_acked_wit :
    (process_message envInvalidJson
      { body := "not json", receiptHandle := "rh7b", receiveCount := 1 }).1 =
      [Effect.jsonLoads "not json",
       Effect.logError
         ("ValueError: " ++ "Expecting value" ++
           ". Unable to parse message body as JSON.")] ∧
    countDeletes (process_message envInvalidJson
      { body := "not json", receiptHandle := "rh7b", receiveCount := 1 }).1 = 0 ∧
    countSends (process_message envInvalidJson
      { body := "not json", receiptHandle := "rh7b", receiveCount := 1 }).1 = 0 ∧
    (process_message envInvalidJson
      { body := "not json", receiptHandle := "rh7b", receiveCount := 1 }).2 =
      Except.ok () :=
  parse_failure_logged_not_acked envInvalidJson
    { body := "not json", receiptHandle := "rh7b", receiveCount := 1 }
    (by decide) (by decide)

/-- C9: the quarantine check precedes the body parse: with receive count
over 10 and a body that is not valid JSON, no parse occurs and the SQS
calls are exactly the dead-letter forward of the raw body followed by the
delete — quarantine never depends on body content. -/
theorem quarantine_independent_of_body (env : Env) (message : Message)
    (hc : 10 < message.receiveCount)
    (_hp : env.jsonParse message.body = none)
    (hs : env.sendRaises = false) :
    countParses (process_message env message).1 = 0 ∧
    sqsCalls (process_message env message).1 =
      [Effect.sendMessage env.deadLetterQueueUrl message.body,
       Effect.deleteMessage env.sqsQueueUrl message.receiptHandle] := by
  rw [process_message_eq_quarantine env message hc]
  cases hd : env.deleteRaises <;>
    simp [quarantineBranch, send_to_dead_letter_queue, delete_message, hs, hd,
      handleExceptions, countParses, sqsCalls, isJsonLoads, isSend, isDelete]

/-- Witness for C9: a concrete non-JSON body at receive count 12. -/
theorem quarantine_independent_of_body_wit :
    countParses (process_message envInvalidJson
      { body := "broken", receiptHandle := "rh9", receiveCount := 12 }).1 = 0 ∧
    sqsCalls (process_message envInvalidJson
      { body := "broken", receiptHandle := "rh9", receiveCount := 12 }).1 =
      [Effect.sendMessage envInvalidJson.deadLetterQueueUrl "broken",
       Effect.deleteMessage envInvalidJson.sqsQueueUrl "rh9"] :=
  quarantine_independent_of_body envInvalidJson
    { body := "broken", receiptHandle := "rh9", receiveCount := 12 }
    (by decide) (by decide) (by decide)

/-- C10: when the fetch succeeds the original artifact is written before
the resized one; and when the resize-and-save step raises, the original
write has already happened while the resized write and the delete never
occur — the failure is not atomic with respect to the filesystem. -/
theorem original_before_resized_not_atomic (env : Env) (message : Message)
    (imgId url : String)
    (hc : message.receiveCount ≤ 10)
    (hp : env.jsonParse message.body = some { id := some imgId, image_url := some url })
    (hid : imgId ≠ "") (hurl : url ≠ "")
    (hhr : env.httpRaises = false) (hst : env.httpStatus url = 200)
    (hsv : env.saveRaises = false) :
    (env.resizeRaises = false →
      writesOf (process_message env message).1 =
        [Effect.saveOriginal (osPathJoin ORIGINALS_DIR (imgId ++ get_image_ext url))
          (env.httpContent url),
         Effect.saveResized (osPathJoin RESIZED_DIR (imgId ++ get_image_ext url))]) ∧
    (env.resizeRaises = true →
      writesOf (process_message env message).1 =
        [Effect.saveOriginal (osPathJoin ORIGINALS_DIR (imgId ++ get_image_ext url))
          (env.httpContent url)] ∧
      countDeletes (process_message env message).1 = 0) := by
  constructor
  · intro hrz
    rw [process_message_eq_normal env message hc,
      process_valid_message_success env message _ _ _ _ imgId url hp hid hurl
        hhr hst hsv hrz]
    cases hd : env.deleteRaises <;>
      simp [hd, handleExceptions, writesOf, isWriteEffect]
  · intro hrz
    rw [process_message_eq_normal env message hc,
      process_valid_message_resize_fail env message _ _ _ _ imgId url hp hid
        hurl hhr hst hsv hrz]
    simp [handleExceptions, writesOf, countDeletes, isWriteEffect, isDelete]

/-- Witness for C10: both arms on concrete messages, once in the
all-success environment and once with a raising resize step. -/
theorem original_before_resized_not_atomic_wit :
    (writesOf (process_message envOk
        { body := "ba", receiptHandle := "rha", receiveCount := 1 }).1 =
      [Effect.saveOriginal
        (osPathJoin ORIGINALS_DIR ("123" ++ get_image_ext "http://example.com/image.jpg"))
        (envOk.httpContent "http://example.com/image.jpg"),
       Effect.saveResized
        (osPathJoin RESIZED_DIR ("123" ++ get_image_ext "http://example.com/image.jpg"))]) ∧
    (writesOf (process_message envResizeFails
        { body := "bb", receiptHandle := "rhb", receiveCount := 1 }).1 =
      [Effect.saveOriginal
        (osPathJoin ORIGINALS_DIR ("123" ++ get_image_ext "http://example.com/image.jpg"))
        (envResizeFails.httpContent "http://example.com/image.jpg")] ∧
      countDeletes (process_message envResizeFails
        { body := "bb", receiptHandle := "rhb", receiveCount := 1 }).1 = 0) :=
  ⟨(original_before_resized_not_atomic envOk
      { body := "ba", receiptHandle := "rha", receiveCount := 1 }
      "123" "http://example.com/image.jpg"
      (by decide) (by decide) (by decide) (by decide) (by decide) (by decide)
      (by decide)).1 (by decide),
   (original_before_resized_not_atomic envResizeFails
      { body := "bb", receiptHandle := "rhb", receiveCount := 1 }
      "123" "http://example.com/image.jpg"
      (by decide) (by decide) (by decide) (by decide) (by decide) (by decide)
      (by decide)).2 (by decide)⟩

end SqsReceiver
